import Mathlib

/-!
Verification development for the ProyectoSegmentacion backend.

The definitions below are a shallow embedding of the Python source:
  * backend/modules/segmentacion/app_cache_service.py   (cache freshness)
  * backend/modules/segmentacion/segmentacion_db_service.py (segmentation save)
  * backend/repositories/postgres_repository.py         (transaction semantics)
  * backend/tools/ingestion/maestra_tiendas_job.py      (store roster ingestion)
  * backend/tools/ingestion/ventas_job.py               (sales ingestion)
  * backend/tools/ingestion/inventario_job.py           (inventory version flip)

Database tables are modeled as Lean lists of rows, SQL NULL as Option,
machine timestamps as integers (seconds), and a transaction as a function
from the pre-state to either an error (rollback: the pre-state is kept) or
a post-state (commit).
-/

namespace ProyectoSegmentacion

/-! ## String primitives

Python str.strip / str.lower / str.upper, modeled directly on the
character list (Char.isWhitespace covers the blank, tab, CR and LF
characters that occur in the delimited sources). -/

def pyStrip (s : String) : String :=
  ⟨((s.data.dropWhile Char.isWhitespace).reverse.dropWhile
      Char.isWhitespace).reverse⟩

def pyLower (s : String) : String := ⟨s.data.map Char.toLower⟩

def pyUpper (s : String) : String := ⟨s.data.map Char.toUpper⟩

/-! ## Cache freshness (app_cache_service.py) -/

/-- A row of the app_cache table as returned by AppCacheService.get:
payload is the json.loads of payload_json (None when the stored JSON is
null or unparsable), updated_at the stored write timestamp. -/
structure CacheEntry (α : Type) where
  payload : Option α
  updated_at : Option Int
  deriving Repr, DecidableEq

/-- AppCacheService.set writes the serialized payload with updated_at = now.
json.dumps followed by json.loads is the identity on the payload, with
Python None mapped to JSON null and back, hence the Option payload. -/
def cacheEntryOf {α : Type} (payload : Option α) (now : Int) : CacheEntry α :=
  { payload := payload, updated_at := some now }

/-- AppCacheService.is_fresh (lines 39-52): False when the entry is missing,
its payload is None, or updated_at is missing; otherwise the age test
age < ttl_seconds, with age = now - updated_at in seconds. -/
def is_fresh {α : Type} (cached : Option (CacheEntry α)) (ttl_seconds : Int)
    (now : Int) : Bool :=
  match cached with
  | none => false
  | some e =>
    match e.payload with
    | none => false
    | some _ =>
      match e.updated_at with
      | none => false
      | some t0 => decide (now - t0 < ttl_seconds)

/-! ## Segmentation ledger (segmentacion_db_service.py)

Tables touched by guardar_segmentacion, modeled as lists of rows.
SQL NULL columns are Option; timestamps are naturals. -/

/-- One line of the incoming payload's detalle list (llave_naval, talla,
cantidad); cantidad is already int(...) coerced in the source. -/
structure DetalleLine where
  llave_naval : String
  talla : String
  cantidad : Int
  deriving Repr, DecidableEq

/-- The save payload: referenciaSku plus the detalle list. The remaining
payload fields (codigo_barras, descripcion, ...) are copied verbatim into
descriptive header columns that no claim inspects and are elided. -/
structure Payload where
  referenciaSku : String
  detalle : List DetalleLine
  deriving Repr, DecidableEq

/-- Row of maestra_tiendas_version (columns used by the save path and the
roster ingestion job). -/
structure MTVersion where
  id_version : Nat
  nombre_archivo : String
  hash_archivo : String
  filas_total : Nat
  estado_version : String
  deriving Repr, DecidableEq

/-- Row of the segmentacion header table (columns the claims inspect). -/
structure SegHeader where
  id_segmentacion : Nat
  referencia : String
  fecha_creacion : Nat
  estado_segmentacion : Option String
  id_version_tiendas : Nat
  deriving Repr, DecidableEq

/-- Row of segmentacion_detalle. -/
structure DetalleRow where
  id_segmentacion : Nat
  llave_naval : String
  talla : String
  cantidad : Int
  estado_detalle : Option String
  fecha_actualizacion : Nat
  deriving Repr, DecidableEq

/-- Row of public.referencias_vistas (referencia_sku is its primary key,
the ON CONFLICT target). -/
structure RefVista where
  referencia_sku : String
  first_seen : Nat
  last_seen : Nat
  segmented_at : Option Nat
  deriving Repr, DecidableEq

/-- The database state visible to guardar_segmentacion. The roster snapshot
maestra_tiendas_actual refreshed in step 2 of the transaction is not read
or written by any other step of the save and is elided. -/
structure DbState where
  versiones : List MTVersion
  segmentacion : List SegHeader
  segmentacion_detalle : List DetalleRow
  referencias_vistas : List RefVista
  next_id_segmentacion : Nat
  deriving Repr, DecidableEq

/-- SELECT id_version FROM maestra_tiendas_version WHERE estado_version =
Activa ORDER BY id_version DESC LIMIT 1 (lines 239-245). -/
def activeVersionId (vs : List MTVersion) : Option Nat :=
  ((vs.filter (fun v => decide (v.estado_version = "Activa"))).map
    (·.id_version)).max?

/-- The per-line payload filter of lines 220-232: strip the key fields and
keep only lines with a nonempty llave, nonempty talla and cantidad > 0;
kept lines carry the stripped keys. -/
def filasActivo (detalles : List DetalleLine) : List DetalleLine :=
  detalles.filterMap (fun d =>
    let llave := pyStrip d.llave_naval
    let talla := pyStrip d.talla
    if llave = "" ∨ talla = "" ∨ d.cantidad ≤ 0 then none
    else some { llave_naval := llave, talla := talla, cantidad := d.cantidad })

/-- total_units accumulated over the kept lines (line 228). -/
def totalUnits (detalles : List DetalleLine) : Int :=
  ((filasActivo detalles).map (·.cantidad)).sum

/-- The tiendas_con_cantidad set (line 229); a Python set, modeled as the
deduplicated list of kept llaves. -/
def tiendasConCantidad (detalles : List DetalleLine) : List String :=
  ((filasActivo detalles).map (·.llave_naval)).dedup

/-- The tallas_usadas set (line 230). -/
def tallasUsadas (detalles : List DetalleLine) : List String :=
  ((filasActivo detalles).map (·.talla)).dedup

/-- Lexicographic code-point comparison of character lists: the order
Python sorted(...) applies to strings. -/
def charListLe : List Char → List Char → Bool
  | [], _ => true
  | _ :: _, [] => false
  | a :: as, b :: bs =>
    if a.toNat < b.toNat then true
    else if b.toNat < a.toNat then false
    else charListLe as bs

def strLe (a b : String) : Bool := charListLe a.data b.data

/-- Insertion sort on strings, modeling Python sorted(...) on the tallas
set (line 391). -/
def insertSorted (s : String) : List String → List String
  | [] => [s]
  | x :: xs => if strLe s x then s :: x :: xs else x :: insertSorted s xs

def sortStrings (l : List String) : List String :=
  l.foldr insertSorted []

/-- new_keys (line 234): set of (llave_naval, talla) pairs of the kept
lines. -/
def newKeys (detalles : List DetalleLine) : List (String × String) :=
  ((filasActivo detalles).map (fun r => (r.llave_naval, r.talla))).dedup

/-- The kept-pair set exactly as the spec words it for the diff (the pairs
of input lines with quantity > 0, key fields stripped); compared against
the newKeys the code computes. -/
def keptKeysSpec (detalles : List DetalleLine) : List (String × String) :=
  (detalles.filter (fun d => decide (0 < d.cantidad))).map
    (fun d => (pyStrip d.llave_naval, pyStrip d.talla))

/-- Headers matching WHERE referencia = ref AND
COALESCE(estado_segmentacion, Activa) = Activa (lines 255-263). -/
def activosDe (segs : List SegHeader) (ref : String) : List SegHeader :=
  segs.filter (fun h =>
    decide (h.referencia = ref ∧ h.estado_segmentacion.getD "Activa" = "Activa"))

/-- ORDER BY fecha_creacion DESC LIMIT 1 over activosDe: the newest active
header (SQL leaves ties unspecified; the model keeps the first-listed of
the newest). -/
def lastActiveHeader (segs : List SegHeader) (ref : String) : Option SegHeader :=
  match activosDe segs ref with
  | [] => none
  | h :: t => some (t.foldl
      (fun b g => if b.fecha_creacion < g.fecha_creacion then g else b) h)

/-- prev_keys (lines 267-278): the (llave_naval, talla) set of the locked
header's detail rows with COALESCE(estado_detalle, Activo) = Activo and
cantidad > 0; empty when there is no previous active header. -/
def prevActiveKeys (dets : List DetalleRow) (lastId : Option Nat) :
    List (String × String) :=
  match lastId with
  | none => []
  | some i =>
    ((dets.filter (fun r =>
        decide (r.id_segmentacion = i ∧
          r.estado_detalle.getD "Activo" = "Activo" ∧ 0 < r.cantidad))).map
      (fun r => (r.llave_naval, r.talla))).dedup

/-- desactivadas = prev_keys - new_keys (line 280). -/
def desactivadasOf (st : DbState) (ref : String)
    (nk : List (String × String)) : List (String × String) :=
  (prevActiveKeys st.segmentacion_detalle
      ((lastActiveHeader st.segmentacion ref).map (·.id_segmentacion))).filter
    (fun q => decide (q ∉ nk))

/-- UPDATE segmentacion SET estado_segmentacion = Inactiva WHERE
id_segmentacion = i (lines 283-288). -/
def flipInactiva (segs : List SegHeader) (i : Nat) : List SegHeader :=
  segs.map (fun h =>
    if h.id_segmentacion = i then { h with estado_segmentacion := some "Inactiva" }
    else h)

/-- An Activo detail row inserted for a kept line (lines 329-337). -/
def mkActivoRow (idSeg now : Nat) (r : DetalleLine) : DetalleRow :=
  { id_segmentacion := idSeg, llave_naval := r.llave_naval, talla := r.talla,
    cantidad := r.cantidad, estado_detalle := some "Activo",
    fecha_actualizacion := now }

/-- An Inactivo tombstone row inserted for a removed pair, cantidad 0
(lines 339-347). -/
def mkTumbaRow (idSeg now : Nat) (q : String × String) : DetalleRow :=
  { id_segmentacion := idSeg, llave_naval := q.1, talla := q.2,
    cantidad := 0, estado_detalle := some "Inactivo",
    fecha_actualizacion := now }

/-- INSERT INTO referencias_vistas ... ON CONFLICT (referencia_sku) DO
UPDATE SET last_seen, segmented_at (lines 361-378); referencia_sku is the
primary key, so updating the first match models the upsert. -/
def upsertRefVista (rvs : List RefVista) (ref : String) (now : Nat)
    (segAt : Option Nat) : List RefVista :=
  match rvs with
  | [] => [{ referencia_sku := ref, first_seen := now, last_seen := now,
             segmented_at := segAt }]
  | r :: t =>
    if r.referencia_sku = ref then
      { r with last_seen := now, segmented_at := segAt } :: t
    else r :: upsertRefVista t ref now segAt

inductive SaveError where
  | missingRef
  | noActiveVersion
  deriving Repr, DecidableEq

/-- The state committed by a successful _tx (lines 237-380): the previous
active header (if any) flipped Inactiva, the new header appended with
estado Activa iff the kept set is nonempty, the Activo rows then the
tombstones appended to the detail table, and the segmented_at marker
upserted to now or NULL. -/
def successState (st : DbState) (ref : String) (fa : List DetalleLine)
    (nk : List (String × String)) (nuevaActiva : Bool) (now idv : Nat) :
    DbState :=
  let idSeg := st.next_id_segmentacion
  { versiones := st.versiones,
    segmentacion :=
      (match lastActiveHeader st.segmentacion ref with
       | none => st.segmentacion
       | some h => flipInactiva st.segmentacion h.id_segmentacion) ++
      [{ id_segmentacion := idSeg, referencia := ref, fecha_creacion := now,
         estado_segmentacion :=
           some (if nuevaActiva then "Activa" else "Inactiva"),
         id_version_tiendas := idv }],
    segmentacion_detalle := st.segmentacion_detalle ++
      (fa.map (mkActivoRow idSeg now) ++
       (desactivadasOf st ref nk).map (mkTumbaRow idSeg now)),
    referencias_vistas := upsertRefVista st.referencias_vistas ref now
      (if nuevaActiva then some now else none),
    next_id_segmentacion := idSeg + 1 }

/-- The _tx closure (lines 237-380): fails with NoActiveVersion when no
roster version is Activa (lines 239-248), otherwise commits successState
and returns the new header id and len(desactivadas). Step 2's snapshot
refresh touches only the elided roster projection. -/
def guardarTx (st : DbState) (ref : String) (fa : List DetalleLine)
    (nk : List (String × String)) (nuevaActiva : Bool) (now : Nat) :
    Except SaveError (DbState × Nat × Nat) :=
  match activeVersionId st.versiones with
  | none => .error .noActiveVersion
  | some idv =>
    .ok (successState st ref fa nk nuevaActiva now idv,
         st.next_id_segmentacion, (desactivadasOf st ref nk).length)

/-- PostgresRepository.run_in_transaction (lines 107-122): commit the
post-state on success, roll back to the pre-state on any error. -/
def run_in_transaction {α : Type} (st : DbState)
    (r : Except SaveError (DbState × α)) : DbState × Except SaveError α :=
  match r with
  | .ok (st2, a) => (st2, .ok a)
  | .error e => (st, .error e)

/-- The resumen dict of the save response (lines 388-394). -/
structure Resumen where
  tiendas_con_cantidad : Nat
  total_unidades : Int
  tallas_usadas : List String
  desactivadas : Nat
  is_segmented : Bool
  deriving Repr, DecidableEq

structure SaveResult where
  id_segmentacion : Nat
  resumen : Resumen
  deriving Repr, DecidableEq

/-- SegmentacionDbService.guardar_segmentacion (lines 203-395), returning
the committed state together with the response (or the raised error, the
state then being the rolled-back pre-state). -/
def guardar_segmentacion (st : DbState) (p : Payload) (now : Nat) :
    DbState × Except SaveError SaveResult :=
  let ref := pyStrip p.referenciaSku
  if ref = "" then (st, .error .missingRef)
  else
    let fa := filasActivo p.detalle
    let nk := newKeys p.detalle
    let nuevaActiva := !nk.isEmpty
    match run_in_transaction st (guardarTx st ref fa nk nuevaActiva now) with
    | (st2, .ok (idSeg, desCount)) =>
      (st2, .ok
        { id_segmentacion := idSeg,
          resumen :=
            { tiendas_con_cantidad := (tiendasConCantidad p.detalle).length,
              total_unidades := totalUnits p.detalle,
              tallas_usadas := sortStrings (tallasUsadas p.detalle),
              desactivadas := desCount,
              is_segmented := nuevaActiva } })
    | (st2, .error e) => (st2, .error e)

/-- The detail rows the save appended (everything past the pre-state's
rows). -/
def insertedRows (st : DbState) (p : Payload) (now : Nat) : List DetalleRow :=
  ((guardar_segmentacion st p now).1).segmentacion_detalle.drop
    st.segmentacion_detalle.length

/-- Number of active headers for one referencia. -/
def countActiveHeaders (segs : List SegHeader) (ref : String) : Nat :=
  (activosDe segs ref).length

/-- The segmented_at marker of a referencia (NULL when the row is absent,
which the UI treats the same as a NULL marker). -/
def segmentedAt (rvs : List RefVista) (ref : String) : Option Nat :=
  match rvs.find? (fun r => decide (r.referencia_sku = ref)) with
  | none => none
  | some r => r.segmented_at

/-- Number of inserted detail rows carrying a given (llave_naval, talla)
pair. -/
def pairCount (rows : List DetalleRow) (q : String × String) : Nat :=
  (rows.filter (fun r => decide ((r.llave_naval, r.talla) = q))).length

/-! ## Store roster ingestion (maestra_tiendas_job.py) -/

/-- EXPECTED_COLUMNS (lines 13-18). -/
def EXPECTED_COLUMNS : List String :=
  ["COD_BODEGA", "COD_DEPENDENCIA", "RAZON_SOCIAL", "DEPENDENCIA", "LLAVE_DEP",
   "DESC_DEPENDENCIA", "LLAVE_DEP2", "ESTADO_TIENDA", "CIUDAD", "LINEA",
   "LLAVE_NAVAL", "ESTADO_LINEA", "RANKIN_LINEA", "TESTEO_FNL?", "CLIMA",
   "ZONA", "LATITUD", "LONGITUD"]

/-- A parsed delimited source file: the DictReader fieldnames (empty list
for a file with no header line) and the data records as cell lists. -/
structure TsvFile where
  header : List String
  records : List (List String)
  deriving Repr, DecidableEq

/-- One DictReader record: fieldnames zipped with the cells (cells beyond
the header are dropped, missing cells read back as None, as absent keys
do through .get). -/
def dictRow (header cells : List String) : List (String × String) :=
  header.zip cells

/-- read_tsv (lines 203-209): the only validation is that fieldnames is
truthy; EXPECTED_COLUMNS is never consulted. -/
def read_tsv (f : TsvFile) :
    Except String (List (List (String × String))) :=
  if f.header.isEmpty then
    .error "El archivo no tiene header. Este loader requiere header."
  else .ok (f.records.map (dictRow f.header))

/-- dict.get on a record: None when the column is absent. -/
def rget (r : List (String × String)) (k : String) : Option String :=
  r.lookup k

/-- Row of maestra_tiendas_staging_raw (all columns nullable). -/
structure StagingRow where
  cod_bodega : Option String
  cod_dependencia : Option String
  razon_social : Option String
  dependencia : Option String
  llave_dep : Option String
  desc_dependencia : Option String
  llave_dep2 : Option String
  estado_tienda : Option String
  ciudad : Option String
  linea : Option String
  llave_naval : Option String
  estado_linea : Option String
  rankin_linea : Option String
  testeo_fnl : Option String
  clima : Option String
  zona : Option String
  latitud : Option String
  longitud : Option String
  deriving Repr, DecidableEq

/-- load_staging's per-record tuple (lines 85-107). -/
def stagingOf (r : List (String × String)) : StagingRow :=
  { cod_bodega := rget r "COD_BODEGA", cod_dependencia := rget r "COD_DEPENDENCIA",
    razon_social := rget r "RAZON_SOCIAL", dependencia := rget r "DEPENDENCIA",
    llave_dep := rget r "LLAVE_DEP", desc_dependencia := rget r "DESC_DEPENDENCIA",
    llave_dep2 := rget r "LLAVE_DEP2", estado_tienda := rget r "ESTADO_TIENDA",
    ciudad := rget r "CIUDAD", linea := rget r "LINEA",
    llave_naval := rget r "LLAVE_NAVAL", estado_linea := rget r "ESTADO_LINEA",
    rankin_linea := rget r "RANKIN_LINEA", testeo_fnl := rget r "TESTEO_FNL?",
    clima := rget r "CLIMA", zona := rget r "ZONA",
    latitud := rget r "LATITUD", longitud := rget r "LONGITUD" }

/-- SQL COALESCE(col, empty string). -/
def sqlCoalesce (v : Option String) : String := v.getD ""

/-- CASE WHEN lower(x) IN (activa, activo) THEN Activo ELSE Inactivo END;
a NULL input falls through to ELSE as in SQL. -/
def normActivo (v : Option String) : String :=
  match v with
  | none => "Inactivo"
  | some s => if pyLower s = "activa" ∨ pyLower s = "activo" then "Activo"
              else "Inactivo"

/-- CASE WHEN lower(testeo_fnl) IN (testeo) THEN Testeo ELSE No Testeo. -/
def normTesteo (v : Option String) : String :=
  match v with
  | none => "No Testeo"
  | some s => if pyLower s = "testeo" then "Testeo" else "No Testeo"

/-- Row of maestra_tiendas_filas. -/
structure FilaRow where
  id_version : Nat
  llave_naval : String
  cod_bodega : String
  cod_dependencia : String
  dependencia : String
  desc_dependencia : String
  ciudad : Option String
  zona : Option String
  clima : Option String
  linea : String
  rankin_linea : String
  estado_linea : String
  estado_tienda : String
  testeo_fnl : String
  deriving Repr, DecidableEq

/-- insert_filas (lines 125-163): staging rows with a nonempty llave_naval,
normalized, tagged with the new version id. -/
def insert_filas (idv : Nat) (staging : List StagingRow) : List FilaRow :=
  (staging.filter (fun s => decide (sqlCoalesce s.llave_naval ≠ ""))).map
    (fun s =>
      { id_version := idv,
        llave_naval := sqlCoalesce s.llave_naval,
        cod_bodega := sqlCoalesce s.cod_bodega,
        cod_dependencia := sqlCoalesce s.cod_dependencia,
        dependencia := sqlCoalesce s.dependencia,
        desc_dependencia := sqlCoalesce s.desc_dependencia,
        ciudad := s.ciudad, zona := s.zona, clima := s.clima,
        linea := sqlCoalesce s.linea,
        rankin_linea := sqlCoalesce s.rankin_linea,
        estado_linea := normActivo s.estado_linea,
        estado_tienda := normActivo s.estado_tienda,
        testeo_fnl := normTesteo s.testeo_fnl })

/-- Row of maestra_tiendas_actual, keyed by llave_naval. -/
structure ActualRow where
  llave_naval : String
  cod_bodega : String
  cod_dependencia : String
  dependencia : String
  ciudad : Option String
  zona : Option String
  clima : Option String
  linea : String
  estado_linea : String
  estado_tienda : String
  testeo_fnl : String
  id_version_ultima : Nat
  deriving Repr, DecidableEq

/-- The SELECT list of upsert_actual (lines 166-200) applied to one fila. -/
def actualOf (f : FilaRow) : ActualRow :=
  { llave_naval := f.llave_naval, cod_bodega := f.cod_bodega,
    cod_dependencia := f.cod_dependencia, dependencia := f.dependencia,
    ciudad := f.ciudad, zona := f.zona, clima := f.clima, linea := f.linea,
    estado_linea := f.estado_linea, estado_tienda := f.estado_tienda,
    testeo_fnl := if pyLower f.testeo_fnl = "testeo" then "Testeo"
                  else "No testeo",
    id_version_ultima := f.id_version }

/-- ON CONFLICT (llave_naval) DO UPDATE: replace the matching row (the key
is unique) or append. -/
def upsertActualRow (acts : List ActualRow) (a : ActualRow) : List ActualRow :=
  match acts with
  | [] => [a]
  | b :: t => if b.llave_naval = a.llave_naval then a :: t
              else b :: upsertActualRow t a

/-- upsert_actual over all filas of the new version. -/
def upsert_actual (idv : Nat) (filas : List FilaRow) (acts : List ActualRow) :
    List ActualRow :=
  ((filas.filter (fun f => decide (f.id_version = idv))).map actualOf).foldl
    upsertActualRow acts

structure MaestraState where
  versiones : List MTVersion
  staging : List StagingRow
  filas : List FilaRow
  actual : List ActualRow
  next_id_version : Nat
  deriving Repr, DecidableEq

/-- get_active_version_hash (lines 36-46): hash of an Activa version row,
LIMIT 1. -/
def m_get_active_version_hash (vs : List MTVersion) : Option String :=
  ((vs.filter (fun v => decide (v.estado_version = "Activa"))).head?).map
    (·.hash_archivo)

/-- create_new_version (lines 49-58): insert Inactiva, RETURNING the id. -/
def m_create_new_version (st : MaestraState) (name hash : String)
    (filasTotal : Nat) : MaestraState × Nat :=
  ({ st with
      versiones := st.versiones ++
        [{ id_version := st.next_id_version, nombre_archivo := name,
           hash_archivo := hash, filas_total := filasTotal,
           estado_version := "Inactiva" }],
      next_id_version := st.next_id_version + 1 },
   st.next_id_version)

/-- set_version_active (lines 61-78): inactivate the current Activa rows,
then activate the new id — two statements of the same transaction. -/
def m_set_version_active (vs : List MTVersion) (newId : Nat) :
    List MTVersion :=
  (vs.map (fun v =>
      if v.estado_version = "Activa" then { v with estado_version := "Inactiva" }
      else v)).map
    (fun v =>
      if v.id_version = newId then { v with estado_version := "Activa" }
      else v)

inductive MaestraOutcome where
  | schemaError (msg : String)
  | noChanges
  | okActivated (idv filas : Nat)
  deriving Repr, DecidableEq

/-- main (lines 212-255): hash + read happen before the DB connection; an
equal active hash rolls back and returns (exit 0, NO CHANGES); otherwise
version insert, staging truncate+load, filas insert, actual upsert and
the active flip run on one connection committed once at the end, so the
returned state is the only committed post-state. -/
def maestra_main (st : MaestraState) (file : TsvFile)
    (fileName fileHash : String) : MaestraState × MaestraOutcome :=
  match read_tsv file with
  | .error m => (st, .schemaError m)
  | .ok recs =>
    let filasTotal := recs.length
    if m_get_active_version_hash st.versiones = some fileHash then
      (st, .noChanges)
    else
      let pair := m_create_new_version st fileName fileHash filasTotal
      let st1 := pair.1
      let newId := pair.2
      let st2 := { st1 with staging := recs.map stagingOf }
      let st3 := { st2 with filas := st2.filas ++ insert_filas newId st2.staging }
      let st4 := { st3 with actual := upsert_actual newId st3.filas st3.actual }
      ({ st4 with versiones := m_set_version_active st4.versiones newId },
       .okActivated newId filasTotal)

/-! ## Sales ingestion (ventas_job.py) -/

/-- Row of ventas_version_archivo. -/
structure VVersion where
  id_version_ventas : Nat
  nombre_archivo : String
  ruta_origen : String
  hash_archivo : String
  filas_total : Nat
  estado_version : String
  deriving Repr, DecidableEq

/-- norm_header_cell (lines 30-36): trim then uppercase. -/
def norm_header_cell (s : String) : String := pyUpper (pyStrip s)

/-- expected_headers of ventas main (lines 398-407). -/
def EXPECTED_HEADERS_VENTAS : List String :=
  ["ORIGEN", "COD_DEPENDENCIA", "DEP_DESTINO", "DESC_DEP_DESTINO", "PLU",
   "EAN", "FECHA_MVTO", "DESC_MOVIMIENTO", "SIGNO", "CANTIDAD", "FECHA_PROD",
   "REPROCESO_VTAS", "DEPENDENCIA", "COD_BODEGA", "RAZON_SOCIAL",
   "TIPO_DEPENDENCIA", "GTIN_ALMACEN", "COD_SIESA", "DESC_DEPENDENCIA",
   "CLIMA", "DEPARTAMENTO", "CIUDAD", "ZONA", "ZONA_EX", "LLAVE_DEP2",
   "ESTADO_TIENDA", "LLAVE_DEP", "REFERENCIA", "DESC_ITEM", "COD_COLOR",
   "COLOR", "TALLA", "LINEA_GEN", "LINEA_DETLL", "ESTILO_ITEM", "GRUPO",
   "LINEA", "MARCA", "TIPO_DE_NEGOCIO", "CUENTO", "TIPO_PORTAFOLIO_MOD",
   "FCH_ACT_PORTAFOLIO", "ESTADO_SKU_MOD", "FCH_ACT_SKU", "PERFIL_PRENDA",
   "CAMBIO_PORTAFOLIO?", "PVP", "PVP LISTA", "PVP HIST", "PVP HIST LISTA",
   "VENTA $ PVP LISTA", "VENTA $ PVP HIST LISTA", "DESC_GRUPO", "MODELO",
   "LINEA_MY", "LLAVE_NAVAL", "ESTADO_LINEA", "Año", "Mes",
   "TIPO_PORTAFOLIO_MOD_2"]

/-- A sales source file: the split header line (none when the file is
empty, so readline returned nothing) and the split data lines. -/
structure VentasFile where
  headerLine : Option (List String)
  dataRows : List (List String)
  deriving Repr, DecidableEq

/-- parse_tsv_lines (lines 39-65): empty file and too-short header are
rejected; then every expected column (normalized) must occur among the
normalized header cells, else the SchemaMismatch error enumerating the
missing ones is raised. -/
def parse_tsv_lines (f : VentasFile) : Except String (List String) :=
  match f.headerLine with
  | none => .error "El archivo está vacío; no hay encabezado."
  | some cells =>
    let raw := cells.map norm_header_cell
    if raw.length < 2 then
      .error "Encabezado inválido: separador/delimitador incorrecto."
    else
      let missing := (EXPECTED_HEADERS_VENTAS.map norm_header_cell).filter
        (fun c => decide (c ∉ raw))
      if missing.isEmpty then .ok raw
      else .error "Faltan columnas en el header del TXT"

/-- build_header_index (lines 68-77): first occurrence index of each
nonempty normalized header cell. -/
def build_header_index (hs : List String) : List (String × Nat) :=
  hs.enum.foldl
    (fun acc p =>
      if p.2 ≠ "" ∧ acc.lookup p.2 = none then acc ++ [(p.2, p.1)] else acc)
    []

/-- safe_get (lines 80-89): cell by optional index, empty string when the
index is missing or out of range, stripped. -/
def safe_get (parts : List String) (idx : Option Nat) : String :=
  match idx with
  | none => ""
  | some i => pyStrip ((parts.get? i).getD "")

/-- staging_cols (lines 169-230): staging column name paired with the
source header name it is read from. -/
def STAGING_COLS : List (String × String) :=
  [("origen", "ORIGEN"), ("cod_dependencia", "COD_DEPENDENCIA"),
   ("dep_destino", "DEP_DESTINO"), ("desc_dep_destino", "DESC_DEP_DESTINO"),
   ("plu", "PLU"), ("ean", "EAN"), ("fecha_mvto", "FECHA_MVTO"),
   ("desc_movimiento", "DESC_MOVIMIENTO"), ("signo", "SIGNO"),
   ("cantidad", "CANTIDAD"), ("fecha_prod", "FECHA_PROD"),
   ("reproceso_vtas", "REPROCESO_VTAS"), ("dependencia", "DEPENDENCIA"),
   ("cod_bodega", "COD_BODEGA"), ("razon_social", "RAZON_SOCIAL"),
   ("tipo_dependencia", "TIPO_DEPENDENCIA"), ("gtin_almacen", "GTIN_ALMACEN"),
   ("cod_siesa", "COD_SIESA"), ("desc_dependencia", "DESC_DEPENDENCIA"),
   ("clima", "CLIMA"), ("departamento", "DEPARTAMENTO"), ("ciudad", "CIUDAD"),
   ("zona", "ZONA"), ("zona_ex", "ZONA_EX"), ("llave_dep2", "LLAVE_DEP2"),
   ("estado_tienda", "ESTADO_TIENDA"), ("llave_dep", "LLAVE_DEP"),
   ("referencia", "REFERENCIA"), ("desc_item", "DESC_ITEM"),
   ("cod_color", "COD_COLOR"), ("color", "COLOR"), ("talla", "TALLA"),
   ("linea_gen", "LINEA_GEN"), ("linea_detll", "LINEA_DETLL"),
   ("estilo_item", "ESTILO_ITEM"), ("grupo", "GRUPO"), ("linea", "LINEA"),
   ("marca", "MARCA"), ("tipo_de_negocio", "TIPO_DE_NEGOCIO"),
   ("cuento", "CUENTO"), ("tipo_portafolio_mod", "TIPO_PORTAFOLIO_MOD"),
   ("fch_act_portafolio", "FCH_ACT_PORTAFOLIO"),
   ("estado_sku_mod", "ESTADO_SKU_MOD"), ("fch_act_sku", "FCH_ACT_SKU"),
   ("perfil_prenda", "PERFIL_PRENDA"),
   ("cambio_portafolio", "CAMBIO_PORTAFOLIO?"), ("pvp", "PVP"),
   ("pvp_lista", "PVP LISTA"), ("pvp_hist", "PVP HIST"),
   ("pvp_hist_lista", "PVP HIST LISTA"),
   ("venta_pvp_lista", "VENTA $ PVP LISTA"),
   ("venta_pvp_hist_lista", "VENTA $ PVP HIST LISTA"),
   ("desc_grupo", "DESC_GRUPO"), ("modelo", "MODELO"),
   ("linea_my", "LINEA_MY"), ("llave_naval", "LLAVE_NAVAL"),
   ("estado_linea", "ESTADO_LINEA"), ("anio", "Año"), ("mes", "Mes"),
   ("tipo_portafolio_mod_2", "TIPO_PORTAFOLIO_MOD_2")]

/-- Row of ventas_staging_raw: version id, line number, and the cell
extracted for each staging column, in STAGING_COLS order. -/
structure VStagingRow where
  id_version_ventas : Nat
  numero_fila : Nat
  values : List String
  deriving Repr, DecidableEq

/-- One staged line of load_staging_raw (lines 254-261). -/
def stagingRowOf (idv rowNo : Nat) (idx : List (String × Nat))
    (parts : List String) : VStagingRow :=
  { id_version_ventas := idv, numero_fila := rowNo,
    values := STAGING_COLS.map
      (fun c => safe_get parts (idx.lookup (norm_header_cell c.2))) }

/-- load_staging_raw (lines 149-271), minus the batching, which only
chunks the inserts. -/
def load_staging_raw (idv : Nat) (headers : List String)
    (rows : List (List String)) : List VStagingRow :=
  let idx := build_header_index headers
  rows.enum.map (fun p => stagingRowOf idv (p.1 + 1) idx p.2)

/-- Value of a staging column of a staged row, by staging column name. -/
def vcol (s : VStagingRow) (db : String) : String :=
  match (STAGING_COLS.map Prod.fst).indexOf? db with
  | none => ""
  | some i => (s.values.get? i).getD ""

/-- hash_fila of stage_to_final (lines 357-371): md5 of the pipe-joined
trimmed natural-key fields. The model keeps the joined key string itself;
only equality of hashes matters to the pipeline (md5 is treated as
injective). -/
def hash_fila_ventas (s : VStagingRow) : String :=
  String.intercalate "|"
    ((["origen", "cod_dependencia", "ean", "fecha_mvto", "desc_movimiento",
       "signo", "cantidad", "llave_naval", "referencia", "cod_color",
       "talla"].map (fun c => pyStrip (vcol s c))))

/-- Row of ventas_movimientos: the version tag and the unique hash_fila
key. The descriptive columns (dates, numerics derived by SQL casts) are
not read by any modeled component and are elided. -/
structure MovRow where
  id_version_ventas : Nat
  hash_fila : String
  deriving Repr, DecidableEq

/-- stage_to_final (lines 274-378): insert one movement row per staged row
of the version, ON CONFLICT (hash_fila) DO NOTHING. -/
def stage_to_final (movs : List MovRow) (staged : List VStagingRow)
    (idv : Nat) : List MovRow :=
  (staged.filter (fun s => decide (s.id_version_ventas = idv))).foldl
    (fun acc s =>
      let h := hash_fila_ventas s
      if acc.any (fun m => decide (m.hash_fila = h)) then acc
      else acc ++ [{ id_version_ventas := idv, hash_fila := h }])
    movs

structure VentasState where
  versiones : List VVersion
  staging : List VStagingRow
  movimientos : List MovRow
  next_id_version : Nat
  deriving Repr, DecidableEq

/-- get_active_version_hash (lines 92-103). -/
def v_get_active_version_hash (vs : List VVersion) : Option String :=
  ((vs.filter (fun v => decide (v.estado_version = "Activa"))).head?).map
    (·.hash_archivo)

/-- insert_new_version (lines 106-117): status Inactiva, RETURNING id. -/
def v_insert_new_version (st : VentasState) (name ruta hash : String) :
    VentasState × Nat :=
  ({ st with
      versiones := st.versiones ++
        [{ id_version_ventas := st.next_id_version, nombre_archivo := name,
           ruta_origen := ruta, hash_archivo := hash, filas_total := 0,
           estado_version := "Inactiva" }],
      next_id_version := st.next_id_version + 1 },
   st.next_id_version)

/-- update_version_rowcount (lines 120-128). -/
def v_update_version_rowcount (vs : List VVersion) (idv filas : Nat) :
    List VVersion :=
  vs.map (fun v =>
    if v.id_version_ventas = idv then { v with filas_total := filas } else v)

/-- activate_version (lines 131-146): inactivate the other Activa rows,
then activate the new id — two statements of the same transaction. -/
def v_activate_version (vs : List VVersion) (newId : Nat) : List VVersion :=
  (vs.map (fun v =>
      if v.estado_version = "Activa" ∧ v.id_version_ventas ≠ newId then
        { v with estado_version := "Inactiva" }
      else v)).map
    (fun v =>
      if v.id_version_ventas = newId then { v with estado_version := "Activa" }
      else v)

inductive VentasOutcome where
  | parseError (msg : String)
  | noChanges
  | okActivated (idv filas : Nat)
  deriving Repr, DecidableEq

/-- main (lines 381-459): header validation happens before the DB
connection; a truthy active hash equal to the file hash rolls back and
returns 0 (NO CHANGES); otherwise the version insert, staging load,
rowcount update, final insert and activation are committed once. -/
def ventas_main (st : VentasState) (f : VentasFile)
    (name ruta fileHash : String) : VentasState × VentasOutcome :=
  match parse_tsv_lines f with
  | .error m => (st, .parseError m)
  | .ok headers =>
    let activeHash := v_get_active_version_hash st.versiones
    if (activeHash.getD "") ≠ "" ∧ activeHash = some fileHash then
      (st, .noChanges)
    else
      let pair := v_insert_new_version st name ruta fileHash
      let st1 := pair.1
      let newId := pair.2
      let staged := load_staging_raw newId headers f.dataRows
      let st2 := { st1 with staging := st1.staging ++ staged }
      let st3 := { st2 with
        versiones := v_update_version_rowcount st2.versiones newId staged.length }
      let st4 := { st3 with
        movimientos := stage_to_final st3.movimientos st3.staging newId }
      ({ st4 with versiones := v_activate_version st4.versiones newId },
       .okActivated newId staged.length)

/-! ## Inventory ingestion (inventario_job.py) -/

/-- Row of inventario_version (columns the version protocol touches). -/
structure IVersion where
  id_version_inventario : Nat
  filas_total : Nat
  estado_version : String
  deriving Repr, DecidableEq

/-- crear_version (lines 86-92): INSERT ... Inactiva RETURNING id, run
through fetch_one which commits it immediately. -/
def inv_crear_version (vs : List IVersion) (nextId : Nat) :
    List IVersion × Nat :=
  (vs ++ [{ id_version_inventario := nextId, filas_total := 0,
            estado_version := "Inactiva" }], nextId)

/-- First UPDATE of marcar_version_activa (lines 96-100): run through its
own repo.execute, i.e. on a fresh connection with an immediate commit. -/
def inv_deactivate_all (vs : List IVersion) : List IVersion :=
  vs.map (fun v =>
    if v.estado_version = "Activa" then { v with estado_version := "Inactiva" }
    else v)

/-- Second UPDATE of marcar_version_activa (lines 102-107): a separate
repo.execute, committed on its own. -/
def inv_activate (vs : List IVersion) (idv filas : Nat) : List IVersion :=
  vs.map (fun v =>
    if v.id_version_inventario = idv then
      { v with estado_version := "Activa", filas_total := filas }
    else v)

/-- Number of Activa versions, abstracted over the version row type. -/
def countActiva {α : Type} (estado : α → String) (vs : List α) : Nat :=
  (vs.filter (fun v => decide (estado v = "Activa"))).length

/-! ## Decidability helper -/

def exceptDecEq {ε α : Type} [DecidableEq ε] [DecidableEq α] :
    DecidableEq (Except ε α) := fun x y =>
  match x, y with
  | .ok a, .ok b =>
    if h : a = b then isTrue (by rw [h])
    else isFalse (by intro hc; cases hc; exact h rfl)
  | .error a, .error b =>
    if h : a = b then isTrue (by rw [h])
    else isFalse (by intro hc; cases hc; exact h rfl)
  | .ok _, .error _ => isFalse (by intro hc; cases hc)
  | .error _, .ok _ => isFalse (by intro hc; cases hc)

instance {ε α : Type} [DecidableEq ε] [DecidableEq α] :
    DecidableEq (Except ε α) := exceptDecEq

/-! ## Concrete example data shared by the witnesses -/

/-- A state whose previous active segmentation of REF is the spec example
set: pairs (S1, M) at 5 and (S2, L) at 3, with roster version 1 Activa. -/
def exSt : DbState :=
  { versiones := [{ id_version := 1, nombre_archivo := "maestra.tsv",
                    hash_archivo := "h1", filas_total := 2,
                    estado_version := "Activa" }],
    segmentacion := [{ id_segmentacion := 1, referencia := "REF",
                       fecha_creacion := 0,
                       estado_segmentacion := some "Activa",
                       id_version_tiendas := 1 }],
    segmentacion_detalle :=
      [{ id_segmentacion := 1, llave_naval := "S1", talla := "M",
         cantidad := 5, estado_detalle := some "Activo",
         fecha_actualizacion := 0 },
       { id_segmentacion := 1, llave_naval := "S2", talla := "L",
         cantidad := 3, estado_detalle := some "Activo",
         fecha_actualizacion := 0 }],
    referencias_vistas := [],
    next_id_segmentacion := 2 }

/-- The spec example save: only (S1, M) at quantity 7. -/
def exPayload : Payload :=
  { referenciaSku := "REF",
    detalle := [{ llave_naval := "S1", talla := "M", cantidad := 7 }] }

/-- An empty maestra_tiendas_version table: no Activa roster version. -/
def exStNoVersion : DbState := { exSt with versiones := [] }

/-! ## C8 — cache freshness boundary -/

/-- C8 (counterexample): the claim quantifies over every cache entry
written at t0, but an entry whose stored payload deserializes to null is
reported Stale even at the instant it was written: at now = t0 = 0 with
ttl 10 the current time lies in the interval, yet is_fresh is false. -/
theorem is_fresh_counterexample_null_payload :
    ((0 : Int) ≤ 0 ∧ (0 : Int) < 0 + 10) ∧
    is_fresh (some (cacheEntryOf (α := Nat) none 0)) 10 0 = false := by
  constructor
  · constructor <;> decide
  · rfl

/-- C8 (amended): for every cache entry written at t0 whose payload is
non-null, and every read at a time not earlier than the write, is_fresh
reports Fresh exactly when the current time lies in the half-open window
from t0 to t0 + ttl_seconds, hence Stale at or after t0 + ttl_seconds:
the age comparison at the boundary is strict. -/
theorem is_fresh_window_amended {α : Type} (p : α) (t0 ttl now : Int)
    (h : t0 ≤ now) :
    is_fresh (some (cacheEntryOf (some p) t0)) ttl now = true ↔
      (t0 ≤ now ∧ now < t0 + ttl) := by
  simp only [is_fresh, cacheEntryOf, decide_eq_true_eq]
  omega

/-- Witness for C8 at the entry written at t0 = 0 with payload 42, ttl 10,
read at now = 3. -/
theorem is_fresh_window_amended_witness :
    ((0 : Int) ≤ 3) ∧
    (is_fresh (some (cacheEntryOf (some (42 : Nat)) 0)) 10 3 = true ↔
      ((0 : Int) ≤ 3 ∧ (3 : Int) < 0 + 10)) :=
  ⟨by decide, is_fresh_window_amended 42 0 10 3 (by decide)⟩

/-! ## C6 — save with no active roster version rolls back -/

/-- C6: when no maestra_tiendas_version row is Activa, guardar_segmentacion
raises the NoActiveVersion error and the whole transaction rolls back: the
returned state is exactly the pre-state, so no header row, detail row or
segmented_at change becomes visible. -/
theorem guardar_no_active_version_rolls_back (st : DbState) (p : Payload)
    (now : Nat) (href : pyStrip p.referenciaSku ≠ "")
    (hv : ∀ v ∈ st.versiones, v.estado_version ≠ "Activa") :
    guardar_segmentacion st p now = (st, .error .noActiveVersion) := by
  have hfil : st.versiones.filter
      (fun v => decide (v.estado_version = "Activa")) = [] := by
    rw [List.filter_eq_nil_iff]
    intro v hm
    simp [hv v hm]
  have hnone : activeVersionId st.versiones = none := by
    unfold activeVersionId
    rw [hfil]
    rfl
  unfold guardar_segmentacion guardarTx run_in_transaction
  rw [if_neg href, hnone]

/-- Witness for C6: the example save against a state with an empty roster
version table errors out and leaves the state untouched. -/
theorem guardar_no_active_version_rolls_back_witness :
    (pyStrip exPayload.referenciaSku ≠ "") ∧
    (∀ v ∈ exStNoVersion.versiones, v.estado_version ≠ "Activa") ∧
    guardar_segmentacion exStNoVersion exPayload 10 =
      (exStNoVersion, .error .noActiveVersion) := by
  have h1 : pyStrip exPayload.referenciaSku ≠ "" := by decide
  have h2 : ∀ v ∈ exStNoVersion.versiones, v.estado_version ≠ "Activa" := by
    intro v hv
    simp [exStNoVersion] at hv
  exact ⟨h1, h2, guardar_no_active_version_rolls_back _ _ _ h1 h2⟩

/-! ## C3 / C4 — versioned snapshot cutover -/

lemma length_filter_key_le_one {α β : Type} [DecidableEq β] (f : α → β) (b : β)
    (l : List α) (h : (l.map f).Nodup) :
    (l.filter (fun a => decide (f a = b))).length ≤ 1 := by
  induction l with
  | nil => simp
  | cons a t ih =>
    rw [List.map_cons, List.nodup_cons] at h
    obtain ⟨hna, hnd⟩ := h
    rw [List.filter_cons]
    by_cases hab : f a = b
    · have hrest : t.filter (fun a => decide (f a = b)) = [] := by
        rw [List.filter_eq_nil_iff]
        intro x hx hdx
        rw [decide_eq_true_eq] at hdx
        exact hna (hab ▸ hdx ▸ List.mem_map_of_mem f hx)
      simp [hab, hrest]
    · simpa [hab] using ih hnd

lemma countActiva_m_set (vs : List MTVersion) (i : Nat) :
    countActiva (·.estado_version) (m_set_version_active vs i) =
      (vs.filter (fun v => decide (v.id_version = i))).length := by
  unfold countActiva m_set_version_active
  rw [List.map_map]
  induction vs with
  | nil => rfl
  | cons v t ih =>
    simp only [List.map_cons, List.filter_cons]
    by_cases hid : v.id_version = i
    · by_cases hest : v.estado_version = "Activa" <;>
        simp [Function.comp, hid, hest, ih]
    · by_cases hest : v.estado_version = "Activa" <;>
        simp [Function.comp, hid, hest, ih]

lemma countActiva_v_activate (vs : List VVersion) (i : Nat) :
    countActiva (·.estado_version) (v_activate_version vs i) =
      (vs.filter (fun v => decide (v.id_version_ventas = i))).length := by
  unfold countActiva v_activate_version
  rw [List.map_map]
  induction vs with
  | nil => rfl
  | cons v t ih =>
    simp only [List.map_cons, List.filter_cons]
    by_cases hid : v.id_version_ventas = i
    · by_cases hest : v.estado_version = "Activa" <;>
        simp [Function.comp, hid, hest, ih]
    · by_cases hest : v.estado_version = "Activa" <;>
        simp [Function.comp, hid, hest, ih]

lemma countActiva_inv_activate (vs : List IVersion) (i f : Nat)
    (h0 : ∀ v ∈ vs, v.estado_version ≠ "Activa") :
    countActiva (·.estado_version) (inv_activate vs i f) =
      (vs.filter (fun v => decide (v.id_version_inventario = i))).length := by
  unfold countActiva inv_activate
  induction vs with
  | nil => rfl
  | cons v t ih =>
    have h0v : v.estado_version ≠ "Activa" := h0 v (List.mem_cons_self v t)
    have h0t : ∀ w ∈ t, w.estado_version ≠ "Activa" :=
      fun w hw => h0 w (List.mem_cons_of_mem v hw)
    simp only [List.map_cons, List.filter_cons]
    by_cases hid : v.id_version_inventario = i
    · simp [hid, h0v, ih h0t]
    · simp [hid, h0v, ih h0t]

lemma inv_deactivate_all_not_activa (vs : List IVersion) :
    ∀ v ∈ inv_deactivate_all vs, v.estado_version ≠ "Activa" := by
  intro v hv
  unfold inv_deactivate_all at hv
  rw [List.mem_map] at hv
  obtain ⟨w, _, rfl⟩ := hv
  by_cases h : w.estado_version = "Activa" <;> simp [h]

lemma countActiva_inv_deactivate (vs : List IVersion) :
    countActiva (·.estado_version) (inv_deactivate_all vs) = 0 := by
  unfold countActiva
  rw [List.length_eq_zero, List.filter_eq_nil_iff]
  intro v hv
  simpa using inv_deactivate_all_not_activa vs v hv

lemma inv_deactivate_all_ids (vs : List IVersion) :
    (inv_deactivate_all vs).map (·.id_version_inventario) =
      vs.map (·.id_version_inventario) := by
  unfold inv_deactivate_all
  rw [List.map_map]
  induction vs with
  | nil => rfl
  | cons v t ih =>
    simp only [List.map_cons]
    by_cases h : v.estado_version = "Activa" <;>
      simp [Function.comp, h, ih]

lemma filter_id_rowcount (vs : List VVersion) (idv filas i : Nat) :
    ((v_update_version_rowcount vs idv filas).filter
        (fun v => decide (v.id_version_ventas = i))).length =
      (vs.filter (fun v => decide (v.id_version_ventas = i))).length := by
  unfold v_update_version_rowcount
  induction vs with
  | nil => rfl
  | cons v t ih =>
    simp only [List.map_cons, List.filter_cons]
    by_cases hid : v.id_version_ventas = idv
    · by_cases hii : idv = i
      · subst hii
        simp [hid, ih]
      · have hvi : v.id_version_ventas ≠ i := by rw [hid]; exact hii
        simp [hid, hii, hvi, ih]
    · by_cases hi : v.id_version_ventas = i
      · have hni : i ≠ idv := fun h => hid (by rw [hi, h])
        simp [hid, hi, hni, ih]
      · simp [hid, hi, ih]

/-- C4: an ingestion run whose source hash equals the hash of the current
Active version is a committed no-op for both the store-roster job and the
sales job: the returned state is exactly the pre-state (no version row, no
staging, fila, actual or movement row changes, row counts untouched) and
the outcome is the successful NO CHANGES exit. -/
theorem ingest_unchanged_hash_noop (stm : MaestraState) (fm : TsvFile)
    (nm hashM : String) (stv : VentasState) (fv : VentasFile)
    (nv rv hashV : String)
    (hm1 : fm.header ≠ [])
    (hm2 : m_get_active_version_hash stm.versiones = some hashM)
    (hv1 : ∃ hs, parse_tsv_lines fv = .ok hs)
    (hv2 : v_get_active_version_hash stv.versiones = some hashV)
    (hv3 : hashV ≠ "") :
    maestra_main stm fm nm hashM = (stm, .noChanges) ∧
    ventas_main stv fv nv rv hashV = (stv, .noChanges) := by
  constructor
  · unfold maestra_main read_tsv
    rw [if_neg (by simpa using hm1)]
    dsimp only
    rw [if_pos hm2]
  · obtain ⟨hs, hok⟩ := hv1
    unfold ventas_main
    rw [hok, hv2]
    dsimp only
    rw [if_pos ⟨by simpa using hv3, rfl⟩]

/-- A roster state whose version 1 is Activa with hash h1. -/
def mstW : MaestraState :=
  { versiones := [{ id_version := 1, nombre_archivo := "maestra.tsv",
                    hash_archivo := "h1", filas_total := 1,
                    estado_version := "Activa" }],
    staging := [], filas := [], actual := [], next_id_version := 2 }

/-- A small roster source file with one record. -/
def fmW : TsvFile :=
  { header := ["COD_BODEGA", "LLAVE_NAVAL"], records := [["b1", "k1"]] }

/-- A sales state whose version 1 is Activa with hash h1. -/
def vstW : VentasState :=
  { versiones := [{ id_version_ventas := 1, nombre_archivo := "ventas.txt",
                    ruta_origen := "r", hash_archivo := "h1",
                    filas_total := 1, estado_version := "Activa" }],
    staging := [], movimientos := [], next_id_version := 2 }

/-- A sales source file carrying exactly the expected header row. -/
def vfFull : VentasFile :=
  { headerLine := some EXPECTED_HEADERS_VENTAS, dataRows := [] }

/-- Witness for C4: re-running both jobs on files hashing to h1 while h1
is the active hash changes nothing. -/
theorem ingest_unchanged_hash_noop_witness :
    (fmW.header ≠ [] ∧
     m_get_active_version_hash mstW.versiones = some "h1" ∧
     (∃ hs, parse_tsv_lines vfFull = .ok hs) ∧
     v_get_active_version_hash vstW.versiones = some "h1" ∧
     ("h1" : String) ≠ "") ∧
    maestra_main mstW fmW "maestra.tsv" "h1" = (mstW, .noChanges) ∧
    ventas_main vstW vfFull "ventas.txt" "r" "h1" = (vstW, .noChanges) := by
  have h1 : fmW.header ≠ [] := by decide
  have h2 : m_get_active_version_hash mstW.versiones = some "h1" := rfl
  have h3 : ∃ hs, parse_tsv_lines vfFull = .ok hs := ⟨_, rfl⟩
  have h4 : v_get_active_version_hash vstW.versiones = some "h1" := rfl
  have h5 : ("h1" : String) ≠ "" := by decide
  exact ⟨⟨h1, h2, h3, h4, h5⟩,
    ingest_unchanged_hash_noop mstW fmW "maestra.tsv" "h1" vstW vfFull
      "ventas.txt" "r" "h1" h1 h2 h3 h4 h5⟩

/-- An inventory version table where version 1 has been activated and the
freshly created version 2 is still Inactiva. -/
def ivEx : List IVersion :=
  [{ id_version_inventario := 1, filas_total := 5, estado_version := "Activa" },
   { id_version_inventario := 2, filas_total := 0, estado_version := "Inactiva" }]

/-- C3 (counterexample): the inventory job runs the two UPDATEs of
marcar_version_activa through two separate auto-committed repo.execute
calls, so the state right after the first one is a committed state; with
one Activa version present before, that committed state has zero Activa
versions, contradicting the claim that the Activa flip always happens
inside the single transaction that deactivates the prior version. -/
theorem inventario_zero_active_window_cx :
    countActiva (·.estado_version) ivEx = 1 ∧
    countActiva (·.estado_version) (inv_deactivate_all ivEx) = 0 := by
  constructor <;> rfl

/-- C3 (amended): versions are created Inactiva for every dataset, and for
the store-roster and sales jobs the cutover is atomic: every committed
state of a run keeps at most one Activa version, and a run that starts
with exactly one Activa version ends with exactly one (so activation never
leaves a committed zero-Active state for those two jobs). The inventory
job also preserves at-most-one-Activa at each of its two commits, but the
committed state between its two UPDATE statements always has zero Activa
versions — the zero-Active window the counterexample exhibits. -/
theorem version_cutover_amended (stm : MaestraState) (fm : TsvFile)
    (nm hashM : String) (stv : VentasState) (fv : VentasFile)
    (nv rv hashV : String) (ivs : List IVersion) (iid ifil : Nat)
    (hmfresh : ∀ v ∈ stm.versiones, v.id_version < stm.next_id_version)
    (hmle : countActiva (·.estado_version) stm.versiones ≤ 1)
    (hvfresh : ∀ v ∈ stv.versiones, v.id_version_ventas < stv.next_id_version)
    (hvle : countActiva (·.estado_version) stv.versiones ≤ 1)
    (hifresh : (ivs.map (·.id_version_inventario)).Nodup) :
    (countActiva (·.estado_version) (maestra_main stm fm nm hashM).1.versiones ≤ 1 ∧
      (countActiva (·.estado_version) stm.versiones = 1 →
        countActiva (·.estado_version) (maestra_main stm fm nm hashM).1.versiones = 1)) ∧
    (countActiva (·.estado_version) (ventas_main stv fv nv rv hashV).1.versiones ≤ 1 ∧
      (countActiva (·.estado_version) stv.versiones = 1 →
        countActiva (·.estado_version) (ventas_main stv fv nv rv hashV).1.versiones = 1)) ∧
    countActiva (·.estado_version) (inv_deactivate_all ivs) = 0 ∧
    countActiva (·.estado_version) (inv_activate (inv_deactivate_all ivs) iid ifil) ≤ 1 := by
  have hmkey : ∀ w : MTVersion, w.id_version = stm.next_id_version →
      countActiva (·.estado_version)
        (m_set_version_active (stm.versiones ++ [w]) stm.next_id_version) = 1 := by
    intro w hw
    rw [countActiva_m_set, List.filter_append]
    have h1 : stm.versiones.filter
        (fun v => decide (v.id_version = stm.next_id_version)) = [] := by
      rw [List.filter_eq_nil_iff]
      intro v hv hd
      rw [decide_eq_true_eq] at hd
      exact absurd hd (Nat.ne_of_lt (hmfresh v hv))
    rw [h1]
    simp [hw]
  have hvkey : ∀ w : VVersion, w.id_version_ventas = stv.next_id_version →
      ∀ filas : Nat,
      countActiva (·.estado_version)
        (v_activate_version
          (v_update_version_rowcount (stv.versiones ++ [w]) stv.next_id_version filas)
          stv.next_id_version) = 1 := by
    intro w hw filas
    rw [countActiva_v_activate, filter_id_rowcount, List.filter_append]
    have h1 : stv.versiones.filter
        (fun v => decide (v.id_version_ventas = stv.next_id_version)) = [] := by
      rw [List.filter_eq_nil_iff]
      intro v hv hd
      rw [decide_eq_true_eq] at hd
      exact absurd hd (Nat.ne_of_lt (hvfresh v hv))
    rw [h1]
    simp [hw]
  refine ⟨?_, ?_, countActiva_inv_deactivate ivs, ?_⟩
  · unfold maestra_main
    split
    · exact ⟨hmle, fun h => h⟩
    · split
      · exact ⟨hmle, fun h => h⟩
      · dsimp only [m_create_new_version]
        rw [hmkey _ rfl]
        exact ⟨le_refl 1, fun _ => rfl⟩
  · unfold ventas_main
    split
    · exact ⟨hvle, fun h => h⟩
    · dsimp only
      split
      · exact ⟨hvle, fun h => h⟩
      · dsimp only [v_insert_new_version]
        rw [hvkey _ rfl _]
        exact ⟨le_refl 1, fun _ => rfl⟩
  · rw [countActiva_inv_activate _ _ _ (inv_deactivate_all_not_activa ivs)]
    refine length_filter_key_le_one _ _ _ ?_
    rw [inv_deactivate_all_ids]
    exact hifresh

/-- Witness for the amended C3 on concrete states: a fresh file hash h2
drives both jobs through the activation path, and the inventory flip runs
on the two-version table of the counterexample. -/
theorem version_cutover_amended_witness :
    ((∀ v ∈ mstW.versiones, v.id_version < mstW.next_id_version) ∧
     countActiva (·.estado_version) mstW.versiones ≤ 1 ∧
     (∀ v ∈ vstW.versiones, v.id_version_ventas < vstW.next_id_version) ∧
     countActiva (·.estado_version) vstW.versiones ≤ 1 ∧
     (ivEx.map (·.id_version_inventario)).Nodup) ∧
    ((countActiva (·.estado_version) (maestra_main mstW fmW "maestra.tsv" "h2").1.versiones ≤ 1 ∧
      (countActiva (·.estado_version) mstW.versiones = 1 →
        countActiva (·.estado_version) (maestra_main mstW fmW "maestra.tsv" "h2").1.versiones = 1)) ∧
     (countActiva (·.estado_version) (ventas_main vstW vfFull "ventas.txt" "r" "h2").1.versiones ≤ 1 ∧
      (countActiva (·.estado_version) vstW.versiones = 1 →
        countActiva (·.estado_version) (ventas_main vstW vfFull "ventas.txt" "r" "h2").1.versiones = 1)) ∧
     countActiva (·.estado_version) (inv_deactivate_all ivEx) = 0 ∧
     countActiva (·.estado_version) (inv_activate (inv_deactivate_all ivEx) 2 9) ≤ 1) := by
  have h1 : ∀ v ∈ mstW.versiones, v.id_version < mstW.next_id_version := by decide
  have h2 : countActiva (·.estado_version) mstW.versiones ≤ 1 := by decide
  have h3 : ∀ v ∈ vstW.versiones, v.id_version_ventas < vstW.next_id_version := by decide
  have h4 : countActiva (·.estado_version) vstW.versiones ≤ 1 := by decide
  have h5 : (ivEx.map (·.id_version_inventario)).Nodup := by decide
  exact ⟨⟨h1, h2, h3, h4, h5⟩,
    version_cutover_amended mstW fmW "maestra.tsv" "h2" vstW vfFull
      "ventas.txt" "r" "h2" ivEx 2 9 h1 h2 h3 h4 h5⟩

/-- A roster source file missing every expected column. -/
def tsvMissingCols : TsvFile :=
  { header := ["FOO", "BAR"], records := [["x", "y"]] }

/-- An empty roster database for the schema-check run. -/
def mstEmpty : MaestraState :=
  { versiones := [], staging := [], filas := [], actual := [],
    next_id_version := 1 }

/-- C7: the claim (and the spec) says the store-roster job fails fast with
a schema-mismatch when an expected column is absent, and the job even
declares EXPECTED_COLUMNS for that purpose — but read_tsv only checks that
some header exists, never consults EXPECTED_COLUMNS, and main then loads
the file and activates a new version. On a file whose header has none of
the 18 expected columns: read_tsv succeeds, and the whole run completes
with okActivated. The sales job, by contrast, does reject a file with
missing columns, as the claim states. -/
theorem maestra_schema_mismatch_not_enforced :
    read_tsv tsvMissingCols = .ok [[("FOO", "x"), ("BAR", "y")]] ∧
    ("LLAVE_NAVAL" ∈ EXPECTED_COLUMNS ∧ "LLAVE_NAVAL" ∉ tsvMissingCols.header) ∧
    (maestra_main mstEmpty tsvMissingCols "maestra.tsv" "h9").2 =
      .okActivated 1 1 ∧
    (∃ m, parse_tsv_lines
        { headerLine := some ["FOO", "BAR"], dataRows := [] } = .error m) := by
  refine ⟨rfl, ⟨by decide, by decide⟩, rfl, ⟨_, rfl⟩⟩

/-! ## Segmentation save: shape lemmas -/

lemma guardar_success (st : DbState) (p : Payload) (now idv : Nat)
    (href : pyStrip p.referenciaSku ≠ "")
    (hv : activeVersionId st.versiones = some idv) :
    guardar_segmentacion st p now =
      (successState st (pyStrip p.referenciaSku) (filasActivo p.detalle)
         (newKeys p.detalle) (!(newKeys p.detalle).isEmpty) now idv,
       .ok { id_segmentacion := st.next_id_segmentacion,
             resumen :=
               { tiendas_con_cantidad := (tiendasConCantidad p.detalle).length,
                 total_unidades := totalUnits p.detalle,
                 tallas_usadas := sortStrings (tallasUsadas p.detalle),
                 desactivadas := (desactivadasOf st (pyStrip p.referenciaSku)
                   (newKeys p.detalle)).length,
                 is_segmented := !(newKeys p.detalle).isEmpty } }) := by
  unfold guardar_segmentacion guardarTx run_in_transaction
  rw [if_neg href, hv]

lemma segmentedAt_upsert (rvs : List RefVista) (ref : String) (now : Nat)
    (segAt : Option Nat) :
    segmentedAt (upsertRefVista rvs ref now segAt) ref = segAt := by
  induction rvs with
  | nil =>
    unfold upsertRefVista segmentedAt
    rw [List.find?_cons_of_pos _ (by simp)]
  | cons r t ih =>
    unfold upsertRefVista
    by_cases h : r.referencia_sku = ref
    · rw [if_pos h]
      unfold segmentedAt
      rw [List.find?_cons_of_pos _ (by simp [h])]
    · rw [if_neg h]
      unfold segmentedAt at ih ⊢
      rw [List.find?_cons_of_neg _ (by simp [h])]
      exact ih

lemma filasActivo_eq_nil (detalles : List DetalleLine)
    (h : detalles = [] ∨ ∀ d ∈ detalles, d.cantidad ≤ 0) :
    filasActivo detalles = [] := by
  rcases h with rfl | h
  · rfl
  · unfold filasActivo
    rw [List.filterMap_eq_nil_iff]
    intro d hd
    simp [h d hd]

lemma newKeys_eq_nil_of (detalles : List DetalleLine)
    (h : filasActivo detalles = []) : newKeys detalles = [] := by
  unfold newKeys
  rw [h]
  rfl

lemma newKeys_ne_nil_of (detalles : List DetalleLine)
    (h : filasActivo detalles ≠ []) : newKeys detalles ≠ [] := by
  unfold newKeys
  intro hc
  exact h (List.map_eq_nil_iff.mp ((List.dedup_eq_nil _).mp hc))

lemma insertedRows_eq (st : DbState) (p : Payload) (now idv : Nat)
    (href : pyStrip p.referenciaSku ≠ "")
    (hv : activeVersionId st.versiones = some idv) :
    insertedRows st p now =
      (filasActivo p.detalle).map (mkActivoRow st.next_id_segmentacion now) ++
      (desactivadasOf st (pyStrip p.referenciaSku) (newKeys p.detalle)).map
        (mkTumbaRow st.next_id_segmentacion now) := by
  unfold insertedRows
  rw [guardar_success st p now idv href hv]
  unfold successState
  dsimp only
  rw [List.drop_left]

lemma insertedRows_missingRef (st : DbState) (p : Payload) (now : Nat)
    (h : pyStrip p.referenciaSku = "") : insertedRows st p now = [] := by
  unfold insertedRows guardar_segmentacion
  rw [if_pos h]
  exact List.drop_length _

lemma insertedRows_noVersion (st : DbState) (p : Payload) (now : Nat)
    (href : pyStrip p.referenciaSku ≠ "")
    (hv : activeVersionId st.versiones = none) : insertedRows st p now = [] := by
  unfold insertedRows guardar_segmentacion guardarTx run_in_transaction
  rw [if_neg href, hv]
  exact List.drop_length _

lemma desactivadasOf_nodup (st : DbState) (ref : String)
    (nk : List (String × String)) : (desactivadasOf st ref nk).Nodup := by
  unfold desactivadasOf
  apply List.Nodup.filter
  unfold prevActiveKeys
  cases (lastActiveHeader st.segmentacion ref).map (·.id_segmentacion) with
  | none => exact List.nodup_nil
  | some i => exact List.nodup_dedup _

lemma mem_filasActivo_iff (detalles : List DetalleLine) (r : DetalleLine) :
    r ∈ filasActivo detalles ↔ ∃ d ∈ detalles,
      ¬(pyStrip d.llave_naval = "" ∨ pyStrip d.talla = "" ∨ d.cantidad ≤ 0) ∧
      r = { llave_naval := pyStrip d.llave_naval, talla := pyStrip d.talla,
            cantidad := d.cantidad } := by
  unfold filasActivo
  rw [List.mem_filterMap]
  constructor
  · rintro ⟨d, hd, hf⟩
    by_cases hc : pyStrip d.llave_naval = "" ∨ pyStrip d.talla = "" ∨ d.cantidad ≤ 0
    · simp [hc] at hf
    · simp only [hc, if_false, Option.some.injEq] at hf
      exact ⟨d, hd, hc, hf.symm⟩
  · rintro ⟨d, hd, hc, rfl⟩
    exact ⟨d, hd, by simp [hc]⟩

/-- The pair set the code computes (new_keys) and the pair set the spec
words describe (kept pairs with quantity > 0) agree on payloads whose key
fields are non-blank. -/
lemma mem_newKeys_iff_kept (detalles : List DetalleLine)
    (hclean : ∀ d ∈ detalles, pyStrip d.llave_naval ≠ "" ∧ pyStrip d.talla ≠ "")
    (q : String × String) :
    q ∈ newKeys detalles ↔ q ∈ keptKeysSpec detalles := by
  unfold newKeys keptKeysSpec
  rw [List.mem_dedup, List.mem_map, List.mem_map]
  constructor
  · rintro ⟨r, hr, rfl⟩
    rw [mem_filasActivo_iff] at hr
    obtain ⟨d, hd, hc, rfl⟩ := hr
    refine ⟨d, ?_, rfl⟩
    rw [List.mem_filter, decide_eq_true_eq]
    push_neg at hc
    exact ⟨hd, by omega⟩
  · rintro ⟨d, hd, rfl⟩
    rw [List.mem_filter, decide_eq_true_eq] at hd
    refine ⟨{ llave_naval := pyStrip d.llave_naval, talla := pyStrip d.talla,
              cantidad := d.cantidad }, ?_, rfl⟩
    rw [mem_filasActivo_iff]
    refine ⟨d, hd.1, ?_, rfl⟩
    push_neg
    exact ⟨(hclean d hd.1).1, (hclean d hd.1).2, by omega⟩

/-! ## C1 — diff correctness of the save -/

/-- C1: for a save whose lines all carry non-blank key fields, against any
previous state: the pairs tombstoned under the new header are exactly
prevActiveKeys minus keptKeys (prevActiveKeys being the previous Active
header's Activo detail pairs with cantidad > 0, keptKeys the input pairs
with cantidad > 0); every tombstone row carries cantidad 0 and estado
Inactivo under the new header id; and every kept line is inserted as an
Activo row with its payload cantidad (and nothing else is). -/
theorem guardar_diff_tombstones_and_kept (st : DbState) (p : Payload) (now : Nat)
    (hclean : ∀ d ∈ p.detalle, pyStrip d.llave_naval ≠ "" ∧ pyStrip d.talla ≠ "")
    (href : pyStrip p.referenciaSku ≠ "")
    (hv : (activeVersionId st.versiones).isSome) :
    (∀ q : String × String,
      (∃ t, t ∈ insertedRows st p now ∧ t.estado_detalle = some "Inactivo" ∧
        t.llave_naval = q.1 ∧ t.talla = q.2) ↔
      (q ∈ prevActiveKeys st.segmentacion_detalle
          ((lastActiveHeader st.segmentacion (pyStrip p.referenciaSku)).map
            (·.id_segmentacion)) ∧
       q ∉ keptKeysSpec p.detalle)) ∧
    (∀ t ∈ insertedRows st p now, t.estado_detalle = some "Inactivo" →
      t.cantidad = 0 ∧ t.id_segmentacion = st.next_id_segmentacion) ∧
    (∀ d ∈ p.detalle, 0 < d.cantidad →
      mkActivoRow st.next_id_segmentacion now
        { llave_naval := pyStrip d.llave_naval, talla := pyStrip d.talla,
          cantidad := d.cantidad } ∈ insertedRows st p now) ∧
    (∀ t ∈ insertedRows st p now, t.estado_detalle = some "Activo" →
      ∃ d, d ∈ p.detalle ∧ 0 < d.cantidad ∧
        t = mkActivoRow st.next_id_segmentacion now
          { llave_naval := pyStrip d.llave_naval, talla := pyStrip d.talla,
            cantidad := d.cantidad }) := by
  obtain ⟨idv, hv2⟩ := Option.isSome_iff_exists.mp hv
  rw [insertedRows_eq st p now idv href hv2]
  have hAI : ("Activo" : String) ≠ "Inactivo" := by decide
  refine ⟨?_, ?_, ?_, ?_⟩
  · intro q
    constructor
    · rintro ⟨t, ht, hestado, hl, htl⟩
      rw [List.mem_append] at ht
      rcases ht with ht | ht
      · rw [List.mem_map] at ht
        obtain ⟨x, _, rfl⟩ := ht
        unfold mkActivoRow at hestado
        simp only [Option.some.injEq] at hestado
        exact absurd hestado hAI
      · rw [List.mem_map] at ht
        obtain ⟨pr, hpr, rfl⟩ := ht
        unfold desactivadasOf at hpr
        rw [List.mem_filter, decide_eq_true_eq] at hpr
        have hq : pr = q := by
          unfold mkTumbaRow at hl htl
          dsimp at hl htl
          exact Prod.ext hl htl
        subst hq
        exact ⟨hpr.1, fun hk =>
          hpr.2 ((mem_newKeys_iff_kept p.detalle hclean pr).mpr hk)⟩
    · rintro ⟨hprev, hkept⟩
      have hnk : q ∉ newKeys p.detalle := fun hk =>
        hkept ((mem_newKeys_iff_kept p.detalle hclean q).mp hk)
      refine ⟨mkTumbaRow st.next_id_segmentacion now q, ?_, rfl, rfl, rfl⟩
      rw [List.mem_append]
      right
      rw [List.mem_map]
      refine ⟨q, ?_, rfl⟩
      unfold desactivadasOf
      rw [List.mem_filter, decide_eq_true_eq]
      exact ⟨hprev, hnk⟩
  · intro t ht hestado
    rw [List.mem_append] at ht
    rcases ht with ht | ht
    · rw [List.mem_map] at ht
      obtain ⟨x, _, rfl⟩ := ht
      unfold mkActivoRow at hestado
      simp only [Option.some.injEq] at hestado
      exact absurd hestado hAI
    · rw [List.mem_map] at ht
      obtain ⟨pr, _, rfl⟩ := ht
      exact ⟨rfl, rfl⟩
  · intro d hd hpos
    rw [List.mem_append]
    left
    rw [List.mem_map]
    refine ⟨{ llave_naval := pyStrip d.llave_naval, talla := pyStrip d.talla,
              cantidad := d.cantidad }, ?_, rfl⟩
    rw [mem_filasActivo_iff]
    refine ⟨d, hd, ?_, rfl⟩
    push_neg
    exact ⟨(hclean d hd).1, (hclean d hd).2, by omega⟩
  · intro t ht hestado
    rw [List.mem_append] at ht
    rcases ht with ht | ht
    · rw [List.mem_map] at ht
      obtain ⟨x, hx, rfl⟩ := ht
      rw [mem_filasActivo_iff] at hx
      obtain ⟨d, hd, hc, rfl⟩ := hx
      push_neg at hc
      exact ⟨d, hd, by omega, rfl⟩
    · rw [List.mem_map] at ht
      obtain ⟨pr, _, rfl⟩ := ht
      unfold mkTumbaRow at hestado
      simp only [Option.some.injEq] at hestado
      exact absurd hestado.symm hAI

/-- Witness for C1: the spec example — previous active pairs (S1, M, 5)
and (S2, L, 3), new save of (S1, M, 7) — yields exactly the Activo row
(S1, M, 7) and the tombstone (S2, L, 0, Inactivo) under header id 2. -/
theorem guardar_diff_tombstones_and_kept_witness :
    ((∀ d ∈ exPayload.detalle,
        pyStrip d.llave_naval ≠ "" ∧ pyStrip d.talla ≠ "") ∧
     pyStrip exPayload.referenciaSku ≠ "" ∧
     (activeVersionId exSt.versiones).isSome) ∧
    insertedRows exSt exPayload 10 =
      [mkActivoRow 2 10 { llave_naval := "S1", talla := "M", cantidad := 7 },
       mkTumbaRow 2 10 ("S2", "L")] ∧
    ((∀ q : String × String,
      (∃ t, t ∈ insertedRows exSt exPayload 10 ∧
        t.estado_detalle = some "Inactivo" ∧
        t.llave_naval = q.1 ∧ t.talla = q.2) ↔
      (q ∈ prevActiveKeys exSt.segmentacion_detalle
          ((lastActiveHeader exSt.segmentacion (pyStrip exPayload.referenciaSku)).map
            (·.id_segmentacion)) ∧
       q ∉ keptKeysSpec exPayload.detalle)) ∧
    (∀ t ∈ insertedRows exSt exPayload 10, t.estado_detalle = some "Inactivo" →
      t.cantidad = 0 ∧ t.id_segmentacion = exSt.next_id_segmentacion) ∧
    (∀ d ∈ exPayload.detalle, 0 < d.cantidad →
      mkActivoRow exSt.next_id_segmentacion 10
        { llave_naval := pyStrip d.llave_naval, talla := pyStrip d.talla,
          cantidad := d.cantidad } ∈ insertedRows exSt exPayload 10) ∧
    (∀ t ∈ insertedRows exSt exPayload 10, t.estado_detalle = some "Activo" →
      ∃ d, d ∈ exPayload.detalle ∧ 0 < d.cantidad ∧
        t = mkActivoRow exSt.next_id_segmentacion 10
          { llave_naval := pyStrip d.llave_naval, talla := pyStrip d.talla,
            cantidad := d.cantidad })) := by
  have h1 : ∀ d ∈ exPayload.detalle,
      pyStrip d.llave_naval ≠ "" ∧ pyStrip d.talla ≠ "" := by decide
  have h2 : pyStrip exPayload.referenciaSku ≠ "" := by decide
  have h3 : (activeVersionId exSt.versiones).isSome := rfl
  exact ⟨⟨h1, h2, h3⟩, rfl,
    guardar_diff_tombstones_and_kept exSt exPayload 10 h1 h2 h3⟩

/-! ## C2 — at most one Active header per referencia -/

lemma foldl_pick_mem (t : List SegHeader) (b : SegHeader) :
    t.foldl (fun x g => if x.fecha_creacion < g.fecha_creacion then g else x) b = b ∨
    t.foldl (fun x g => if x.fecha_creacion < g.fecha_creacion then g else x) b ∈ t := by
  induction t generalizing b with
  | nil => exact Or.inl rfl
  | cons g t ih =>
    rw [List.foldl_cons]
    rcases ih (if b.fecha_creacion < g.fecha_creacion then g else b) with heq | hmem
    · rw [heq]
      by_cases hlt : b.fecha_creacion < g.fecha_creacion
      · rw [if_pos hlt]
        exact Or.inr (List.mem_cons_self g t)
      · rw [if_neg hlt]
        exact Or.inl rfl
    · exact Or.inr (List.mem_cons_of_mem g hmem)

lemma lastActiveHeader_none_iff (segs : List SegHeader) (ref : String) :
    lastActiveHeader segs ref = none ↔ activosDe segs ref = [] := by
  unfold lastActiveHeader
  cases h : activosDe segs ref <;> simp [h]

lemma lastActiveHeader_mem (segs : List SegHeader) (ref : String)
    (hh : SegHeader) (h : lastActiveHeader segs ref = some hh) :
    hh ∈ activosDe segs ref := by
  unfold lastActiveHeader at h
  cases hl : activosDe segs ref with
  | nil => rw [hl] at h; exact absurd h (by simp)
  | cons a t =>
    rw [hl] at h
    simp only [Option.some.injEq] at h
    rcases foldl_pick_mem t a with heq | hmem
    · rw [← h, heq]; exact List.mem_cons_self a t
    · rw [← h]; exact List.mem_cons_of_mem a hmem

lemma activosDe_flip_le (segs : List SegHeader) (i : Nat) (r : String) :
    (activosDe (flipInactiva segs i) r).length ≤ (activosDe segs r).length := by
  unfold activosDe flipInactiva
  induction segs with
  | nil => simp
  | cons g t ih =>
    rw [List.map_cons, List.filter_cons, List.filter_cons]
    by_cases hid : g.id_segmentacion = i
    · rw [if_pos hid]
      have hni : (decide
          (({ g with estado_segmentacion := some "Inactiva" } : SegHeader).referencia = r ∧
           ({ g with estado_segmentacion := some "Inactiva" } : SegHeader).estado_segmentacion.getD
             "Activa" = "Activa")) = false := by
        simp
      rw [hni]
      by_cases hp : (decide (g.referencia = r ∧
          g.estado_segmentacion.getD "Activa" = "Activa")) = true
      · rw [hp]
        exact le_trans ih (by simp)
      · rw [eq_false_of_ne_true hp]
        exact ih
    · rw [if_neg hid]
      by_cases hp : (decide (g.referencia = r ∧
          g.estado_segmentacion.getD "Activa" = "Activa")) = true
      · rw [hp]
        simpa using ih
      · rw [eq_false_of_ne_true hp]
        exact ih

lemma activosDe_flip_self (segs : List SegHeader) (ref : String) (hh : SegHeader)
    (hsingle : activosDe segs ref = [hh]) :
    activosDe (flipInactiva segs hh.id_segmentacion) ref = [] := by
  unfold activosDe flipInactiva
  rw [List.filter_eq_nil_iff]
  intro g2 hg2
  rw [List.mem_map] at hg2
  obtain ⟨g, hg, rfl⟩ := hg2
  by_cases hid : g.id_segmentacion = hh.id_segmentacion
  · rw [if_pos hid]
    simp
  · rw [if_neg hid]
    intro hpred
    rw [decide_eq_true_eq] at hpred
    have hmem : g ∈ activosDe segs ref := by
      unfold activosDe
      rw [List.mem_filter, decide_eq_true_eq]
      exact ⟨hg, hpred⟩
    rw [hsingle, List.mem_singleton] at hmem
    exact hid (by rw [hmem])

/-- C2: a save preserves the at-most-one-Active-header invariant, for the
saved referencia and every other one: if at most one header of a
referencia is Activa before guardar_segmentacion (whether the save
succeeds, is rejected for a blank referencia, or rolls back on a missing
roster version), at most one is Activa afterwards — the locked previous
Active header is flipped Inactiva inside the same transaction that
inserts the (at most one) new Activa header. -/
theorem guardar_at_most_one_active_header (st : DbState) (p : Payload)
    (now : Nat) (r : String)
    (h : countActiveHeaders st.segmentacion r ≤ 1) :
    countActiveHeaders ((guardar_segmentacion st p now).1).segmentacion r ≤ 1 := by
  by_cases href : pyStrip p.referenciaSku = ""
  · unfold guardar_segmentacion
    rw [if_pos href]
    exact h
  · cases hv : activeVersionId st.versiones with
    | none =>
      unfold guardar_segmentacion guardarTx run_in_transaction
      rw [if_neg href, hv]
      exact h
    | some idv =>
      rw [guardar_success st p now idv href hv]
      unfold successState countActiveHeaders
      dsimp only
      unfold activosDe
      rw [List.filter_append, List.length_append]
      by_cases hr : pyStrip p.referenciaSku = r
      · cases hlh : lastActiveHeader st.segmentacion (pyStrip p.referenciaSku) with
        | none =>
          have h0 : activosDe st.segmentacion (pyStrip p.referenciaSku) = [] :=
            (lastActiveHeader_none_iff _ _).mp hlh
          dsimp only
          have hz : (st.segmentacion.filter (fun h =>
              decide (h.referencia = r ∧
                h.estado_segmentacion.getD "Activa" = "Activa"))).length = 0 := by
            rw [← hr]
            have := congrArg List.length h0
            unfold activosDe at this
            simpa using this
          rw [hz]
          exact le_trans
            (by exact Nat.add_le_add_left (List.length_filter_le _ _) 0) (by simp)
        | some hh =>
          dsimp only
          have hmem : hh ∈ activosDe st.segmentacion (pyStrip p.referenciaSku) :=
            lastActiveHeader_mem _ _ _ hlh
          have hle : (activosDe st.segmentacion (pyStrip p.referenciaSku)).length ≤ 1 := by
            unfold countActiveHeaders at h
            rw [hr]
            exact h
          have hlen1 : (activosDe st.segmentacion (pyStrip p.referenciaSku)).length = 1 := by
            have h1 : 1 ≤ (activosDe st.segmentacion (pyStrip p.referenciaSku)).length := by
              cases hl : activosDe st.segmentacion (pyStrip p.referenciaSku) with
              | nil => rw [hl] at hmem; exact absurd hmem (List.not_mem_nil hh)
              | cons a t => simp
            omega
          obtain ⟨a, ha⟩ := List.length_eq_one.mp hlen1
          have haa : hh = a := by
            rw [ha, List.mem_singleton] at hmem
            exact hmem
          have hflip : activosDe (flipInactiva st.segmentacion hh.id_segmentacion)
              (pyStrip p.referenciaSku) = [] :=
            activosDe_flip_self _ _ hh (by rw [ha, haa])
          have hflipr : (List.filter (fun h =>
              decide (h.referencia = r ∧
                h.estado_segmentacion.getD "Activa" = "Activa"))
              (flipInactiva st.segmentacion hh.id_segmentacion)).length = 0 := by
            rw [← hr]
            have := congrArg List.length hflip
            unfold activosDe at this
            simpa using this
          rw [hflipr]
          exact le_trans
            (by exact Nat.add_le_add_left (List.length_filter_le _ _) 0) (by simp)
      · have hnew : (List.filter (fun h =>
            decide (h.referencia = r ∧
              h.estado_segmentacion.getD "Activa" = "Activa"))
            [({ id_segmentacion := st.next_id_segmentacion,
                referencia := pyStrip p.referenciaSku, fecha_creacion := now,
                estado_segmentacion :=
                  some (if (!(newKeys p.detalle).isEmpty) = true then "Activa"
                        else "Inactiva"),
                id_version_tiendas := idv } : SegHeader)]).length = 0 := by
          simp [hr]
        rw [hnew]
        cases hlh : lastActiveHeader st.segmentacion (pyStrip p.referenciaSku) with
        | none =>
          dsimp only
          unfold countActiveHeaders activosDe at h
          omega
        | some hh =>
          dsimp only
          have := activosDe_flip_le st.segmentacion hh.id_segmentacion r
          unfold countActiveHeaders at h
          unfold activosDe at this h
          omega

/-- Witness for C2: the example state holds one Active header for REF and
still holds at most one after saving. -/
theorem guardar_at_most_one_active_header_witness :
    countActiveHeaders exSt.segmentacion "REF" ≤ 1 ∧
    countActiveHeaders ((guardar_segmentacion exSt exPayload 10).1).segmentacion
      "REF" ≤ 1 := by
  have h : countActiveHeaders exSt.segmentacion "REF" ≤ 1 := by decide
  exact ⟨h, guardar_at_most_one_active_header exSt exPayload 10 "REF" h⟩

/-! ## C5 — header status and visibility marker -/

/-- C5: under an existing active roster version and a non-blank
referencia, a save whose detalle list is empty or all non-positive gets a
new header with estado Inactiva and a segmented_at marker cleared to NULL,
while a save whose kept set is nonempty gets estado Activa and
segmented_at set to the save timestamp. -/
theorem guardar_estado_header_and_marker (st : DbState) (p : Payload) (now : Nat)
    (href : pyStrip p.referenciaSku ≠ "")
    (hv : (activeVersionId st.versiones).isSome) :
    ((p.detalle = [] ∨ ∀ d ∈ p.detalle, d.cantidad ≤ 0) →
      (((guardar_segmentacion st p now).1.segmentacion.getLast?).map
          (·.estado_segmentacion) = some (some "Inactiva") ∧
       segmentedAt (guardar_segmentacion st p now).1.referencias_vistas
          (pyStrip p.referenciaSku) = none)) ∧
    (filasActivo p.detalle ≠ [] →
      (((guardar_segmentacion st p now).1.segmentacion.getLast?).map
          (·.estado_segmentacion) = some (some "Activa") ∧
       segmentedAt (guardar_segmentacion st p now).1.referencias_vistas
          (pyStrip p.referenciaSku) = some now)) := by
  obtain ⟨idv, hv2⟩ := Option.isSome_iff_exists.mp hv
  rw [guardar_success st p now idv href hv2]
  unfold successState
  constructor
  · intro hzero
    have hfa : filasActivo p.detalle = [] := filasActivo_eq_nil p.detalle hzero
    have hnk : newKeys p.detalle = [] := newKeys_eq_nil_of p.detalle hfa
    rw [hnk]
    constructor
    · dsimp only
      rw [List.getLast?_concat]
      rfl
    · dsimp only
      rw [segmentedAt_upsert]
      rfl
  · intro hne
    have hnk : newKeys p.detalle ≠ [] := newKeys_ne_nil_of p.detalle hne
    have hne2 : (newKeys p.detalle).isEmpty = false := by
      cases hk : newKeys p.detalle with
      | nil => exact absurd hk hnk
      | cons a l => rfl
    rw [hne2]
    constructor
    · dsimp only
      rw [List.getLast?_concat]
      rfl
    · dsimp only
      rw [segmentedAt_upsert]
      rfl

/-- The all-zero save of the example reference. -/
def exPayloadZero : Payload :=
  { referenciaSku := "REF",
    detalle := [{ llave_naval := "S1", talla := "M", cantidad := 0 }] }

/-- Witness for C5: saving an all-zero list over the example state leaves
an Inactiva header and a NULL marker (and the nonempty side holds for the
example save). -/
theorem guardar_estado_header_and_marker_witness :
    (pyStrip exPayloadZero.referenciaSku ≠ "" ∧
     (activeVersionId exSt.versiones).isSome) ∧
    ((exPayloadZero.detalle = [] ∨ ∀ d ∈ exPayloadZero.detalle, d.cantidad ≤ 0) →
      (((guardar_segmentacion exSt exPayloadZero 10).1.segmentacion.getLast?).map
          (·.estado_segmentacion) = some (some "Inactiva") ∧
       segmentedAt (guardar_segmentacion exSt exPayloadZero 10).1.referencias_vistas
          (pyStrip exPayloadZero.referenciaSku) = none)) ∧
    (filasActivo exPayloadZero.detalle ≠ [] →
      (((guardar_segmentacion exSt exPayloadZero 10).1.segmentacion.getLast?).map
          (·.estado_segmentacion) = some (some "Activa") ∧
       segmentedAt (guardar_segmentacion exSt exPayloadZero 10).1.referencias_vistas
          (pyStrip exPayloadZero.referenciaSku) = some 10)) := by
  have h1 : pyStrip exPayloadZero.referenciaSku ≠ "" := by decide
  have h2 : (activeVersionId exSt.versiones).isSome := rfl
  have h := guardar_estado_header_and_marker exSt exPayloadZero 10 h1 h2
  exact ⟨⟨h1, h2⟩, h.1, h.2⟩

/-! ## C9 — uniqueness of (llave_naval, talla) per header -/

/-- The example save repeated: the same pair (S1, M) on two lines with
positive quantities. -/
def exPayloadDup : Payload :=
  { referenciaSku := "REF",
    detalle := [{ llave_naval := "S1", talla := "M", cantidad := 3 },
                { llave_naval := "S1", talla := "M", cantidad := 4 }] }

/-- C9 (counterexample): the save does not deduplicate repeated payload
pairs — saving two lines for (S1, M) inserts two Activo detail rows for
the same (llave_naval, talla) under the new header, so the claimed
uniqueness fails on such an input. -/
theorem guardar_duplicate_input_pair_cx :
    pairCount (insertedRows exSt exPayloadDup 10) ("S1", "M") = 2 := rfl

/-- C9 (amended): when the kept lines of the payload contain no repeated
(llave_naval, talla) pair, each pair occurs at most once among the detail
rows inserted under the new header: kept rows are pairwise distinct by
hypothesis, tombstones come from a set difference (so are pairwise
distinct and never collide with a kept pair). The code itself does not
deduplicate repeated input pairs. -/
theorem guardar_unique_pairs_amended (st : DbState) (p : Payload) (now : Nat)
    (h : ((filasActivo p.detalle).map
        (fun r => (r.llave_naval, r.talla))).Nodup) :
    ∀ q : String × String, pairCount (insertedRows st p now) q ≤ 1 := by
  intro q
  by_cases href : pyStrip p.referenciaSku = ""
  · rw [insertedRows_missingRef st p now href]
    simp [pairCount]
  · cases hv : activeVersionId st.versiones with
    | none =>
      rw [insertedRows_noVersion st p now href hv]
      simp [pairCount]
    | some idv =>
      rw [insertedRows_eq st p now idv href hv]
      unfold pairCount
      rw [List.filter_append, List.length_append]
      rw [List.filter_map, List.filter_map]
      have hA : ((filasActivo p.detalle).filter
          ((fun r : DetalleRow => decide ((r.llave_naval, r.talla) = q)) ∘
            mkActivoRow st.next_id_segmentacion now)) =
          ((filasActivo p.detalle).filter
            (fun r => decide ((r.llave_naval, r.talla) = q))) := by
        apply List.filter_congr
        intro x _
        rfl
      have hB : ((desactivadasOf st (pyStrip p.referenciaSku) (newKeys p.detalle)).filter
          ((fun r : DetalleRow => decide ((r.llave_naval, r.talla) = q)) ∘
            mkTumbaRow st.next_id_segmentacion now)) =
          ((desactivadasOf st (pyStrip p.referenciaSku) (newKeys p.detalle)).filter
            (fun pr => decide (pr = q))) := by
        apply List.filter_congr
        intro x _
        rfl
      rw [hA, hB, List.length_map, List.length_map]
      by_cases hq : q ∈ newKeys p.detalle
      · have hB0 : ((desactivadasOf st (pyStrip p.referenciaSku)
            (newKeys p.detalle)).filter (fun pr => decide (pr = q))) = [] := by
          rw [List.filter_eq_nil_iff]
          intro pr hpr hdq
          rw [decide_eq_true_eq] at hdq
          subst hdq
          unfold desactivadasOf at hpr
          rw [List.mem_filter, decide_eq_true_eq] at hpr
          exact hpr.2 hq
        rw [hB0]
        have hb := length_filter_key_le_one
          (fun r : DetalleLine => (r.llave_naval, r.talla)) q
          (filasActivo p.detalle) h
        simpa using hb
      · have hA0 : ((filasActivo p.detalle).filter
            (fun r => decide ((r.llave_naval, r.talla) = q))) = [] := by
          rw [List.filter_eq_nil_iff]
          intro r hr hdq
          rw [decide_eq_true_eq] at hdq
          apply hq
          unfold newKeys
          rw [List.mem_dedup, List.mem_map]
          exact ⟨r, hr, hdq⟩
        rw [hA0]
        have hnd := desactivadasOf_nodup st (pyStrip p.referenciaSku) (newKeys p.detalle)
        have hb := length_filter_key_le_one (fun pr : String × String => pr) q
          (desactivadasOf st (pyStrip p.referenciaSku) (newKeys p.detalle))
          (by simpa using hnd)
        simpa using hb

/-- Witness for the amended C9 on the example save, whose kept pairs are
pairwise distinct. -/
theorem guardar_unique_pairs_amended_witness :
    ((filasActivo exPayload.detalle).map
        (fun r => (r.llave_naval, r.talla))).Nodup ∧
    ∀ q : String × String, pairCount (insertedRows exSt exPayload 10) q ≤ 1 := by
  have h : ((filasActivo exPayload.detalle).map
      (fun r => (r.llave_naval, r.talla))).Nodup := by decide
  exact ⟨h, guardar_unique_pairs_amended exSt exPayload 10 h⟩

/-! ## C10 — blank key fields are filtered out entirely -/

lemma filasActivo_cons_blank (d : DetalleLine) (rest : List DetalleLine)
    (h : pyStrip d.llave_naval = "" ∨ pyStrip d.talla = "") :
    filasActivo (d :: rest) = filasActivo rest := by
  unfold filasActivo
  rw [List.filterMap_cons]
  rcases h with h | h <;> simp [h]

/-- C10: a payload line whose llave_naval or talla strips to the empty
string is excluded from the save outright — whatever its quantity, the
whole result of guardar_segmentacion (committed state, inserted rows,
header status and the returned tiendas_con_cantidad, total_unidades and
tallas_usadas summary) is the same as if the line were absent, a strictly
broader filter than the quantity > 0 partition rule alone. -/
theorem guardar_ignores_blank_key_lines (st : DbState) (refSku : String)
    (d : DetalleLine) (rest : List DetalleLine) (now : Nat)
    (h : pyStrip d.llave_naval = "" ∨ pyStrip d.talla = "") :
    guardar_segmentacion st { referenciaSku := refSku, detalle := d :: rest } now =
      guardar_segmentacion st { referenciaSku := refSku, detalle := rest } now := by
  have hfa := filasActivo_cons_blank d rest h
  unfold guardar_segmentacion newKeys tiendasConCantidad tallasUsadas totalUnits
  dsimp only
  rw [hfa]

/-- A line with a whitespace-only llave_naval and a positive quantity. -/
def exBlankLine : DetalleLine :=
  { llave_naval := "   ", talla := "M", cantidad := 7 }

/-- Witness for C10: prepending the blank-key line (quantity 7 > 0) to the
example save changes nothing. -/
theorem guardar_ignores_blank_key_lines_witness :
    (pyStrip exBlankLine.llave_naval = "" ∨ pyStrip exBlankLine.talla = "") ∧
    0 < exBlankLine.cantidad ∧
    guardar_segmentacion exSt
        { referenciaSku := "REF", detalle := exBlankLine :: exPayload.detalle } 10 =
      guardar_segmentacion exSt
        { referenciaSku := "REF", detalle := exPayload.detalle } 10 := by
  have h : pyStrip exBlankLine.llave_naval = "" ∨ pyStrip exBlankLine.talla = "" := by
    exact Or.inl (by decide)
  exact ⟨h, by decide,
    guardar_ignores_blank_key_lines exSt "REF" exBlankLine exPayload.detalle 10 h⟩

end ProyectoSegmentacion
